import Mathlib

/-!
A shallow embedding of the `nuttx-rs` device wrappers
(`src/input/touchscreen.rs` and `src/video/fb.rs`).

Operating-system primitives (`open`, `read`, `ioctl`) are modelled as
oracle parameters: each wrapper method takes the outcome the OS call
would produce and computes the wrapper's observable result from it,
exactly as the Rust source does.  Machine integers are `Nat`/`Int` with
explicit wrapping where the source casts (`bytes_read as i32`).
Structures transferred by the kernel by writing raw bytes into a
`repr(C)` buffer are modelled by an explicit byte-level decoder that
follows the C layout (little-endian, natural alignment padding).
-/

/-- Wrap an `Int` into the range of a 32-bit signed integer, modelling
Rust's `as i32` cast on a signed value. -/
def wrap32 (n : Int) : Int :=
  ((n + 2 ^ 31) % 2 ^ 32) - 2 ^ 31

/-! ### Touchscreen data model (`src/input/touchscreen.rs`) -/

/-- `TouchPoint`: one physical contact, mirroring the `repr(C)` struct
(`id : u8`, `flags : u8`, `x y h w : i16`, `gesture pressure : u16`,
`timestamp : u64`).  Unsigned fields are `Nat`, signed fields `Int`. -/
structure TouchPoint where
  id : Nat
  flags : Nat
  x : Int
  y : Int
  h : Int
  w : Int
  gesture : Nat
  pressure : Nat
  timestamp : Nat
  deriving Repr, DecidableEq

/-- `TouchPoint::default()`: all fields zero (Rust `#[derive(Default)]`). -/
def TouchPoint.default : TouchPoint :=
  { id := 0, flags := 0, x := 0, y := 0, h := 0, w := 0
    gesture := 0, pressure := 0, timestamp := 0 }

/-- `TouchPoint::new()` just returns the default value. -/
def TouchPoint.new : TouchPoint := TouchPoint.default

/-- `TouchSample`: `npoints : c_int` plus a one-element point array. -/
structure TouchSample where
  npoints : Int
  point : TouchPoint
  deriving Repr, DecidableEq

/-- `TOUCH_DOWN`: a new touch contact is established (`1 << 0`). -/
def TOUCH_DOWN : Nat := 1 <<< 0
/-- `TOUCH_MOVE`: movement occurred with previously reported contact (`1 << 1`). -/
def TOUCH_MOVE : Nat := 1 <<< 1
/-- `TOUCH_UP`: the touch contact was lost (`1 << 2`). -/
def TOUCH_UP : Nat := 1 <<< 2
/-- `TOUCH_ID_VALID`: touch ID is certain (`1 << 3`). -/
def TOUCH_ID_VALID : Nat := 1 <<< 3
/-- `TOUCH_POS_VALID`: hardware provided a valid X/Y position (`1 << 4`). -/
def TOUCH_POS_VALID : Nat := 1 <<< 4
/-- `TOUCH_PRESSURE_VALID`: hardware provided a valid pressure (`1 << 5`). -/
def TOUCH_PRESSURE_VALID : Nat := 1 <<< 5
/-- `TOUCH_SIZE_VALID`: hardware provided a valid H/W contact size (`1 << 6`). -/
def TOUCH_SIZE_VALID : Nat := 1 <<< 6
/-- `TOUCH_GESTURE_VALID`: hardware provided a valid gesture (`1 << 7`). -/
def TOUCH_GESTURE_VALID : Nat := 1 <<< 7

/-- `self.flags & TOUCH_POS_VALID != 0` -/
def TouchPoint.is_pos_valid (p : TouchPoint) : Bool :=
  p.flags &&& TOUCH_POS_VALID != 0

/-- `self.flags & TOUCH_DOWN != 0` -/
def TouchPoint.is_touch_down (p : TouchPoint) : Bool :=
  p.flags &&& TOUCH_DOWN != 0

/-- `self.flags & TOUCH_MOVE != 0` -/
def TouchPoint.is_touch_move (p : TouchPoint) : Bool :=
  p.flags &&& TOUCH_MOVE != 0

/-- `self.flags & TOUCH_UP != 0` -/
def TouchPoint.is_touch_up (p : TouchPoint) : Bool :=
  p.flags &&& TOUCH_UP != 0

/-- `self.flags & TOUCH_ID_VALID != 0` -/
def TouchPoint.is_id_valid (p : TouchPoint) : Bool :=
  p.flags &&& TOUCH_ID_VALID != 0

/-- `self.flags & TOUCH_PRESSURE_VALID != 0` -/
def TouchPoint.is_pressure_valid (p : TouchPoint) : Bool :=
  p.flags &&& TOUCH_PRESSURE_VALID != 0

/-- `self.flags & TOUCH_SIZE_VALID != 0` -/
def TouchPoint.is_size_valid (p : TouchPoint) : Bool :=
  p.flags &&& TOUCH_SIZE_VALID != 0

/-- `self.flags & TOUCH_GESTURE_VALID != 0` -/
def TouchPoint.is_gesture_valid (p : TouchPoint) : Bool :=
  p.flags &&& TOUCH_GESTURE_VALID != 0

/-! ### Byte-level layout of `TouchSample`

`TouchSample` is `repr(C)`: `npoints : i32` at offset 0, padding at 4..8
(the point array is 8-aligned because of `timestamp : u64`), then one
`TouchPoint` at offset 8.  `TouchPoint` is `id : u8` at 0, `flags : u8`
at 1, `x y h w : i16` at 2,4,6,8, `gesture pressure : u16` at 10,12,
padding at 14..16, `timestamp : u64` at 16; size 24.  Total size of
`TouchSample`: 32 bytes.  Multi-byte fields are native-endian; NuttX
targets here are little-endian. -/

/-- `size_of::<TouchSample>()` for the `repr(C)` layout above. -/
def TOUCH_SAMPLE_SIZE : Nat := 32

/-- Read one byte of the transferred buffer; bytes beyond the list are
the zero-initialised contents of the stack buffer `read` wrote into. -/
def byteAt (bs : List Nat) (i : Nat) : Nat :=
  (bs.getD i 0) % 256

/-- Little-endian `u16` at offset `i`. -/
def decodeU16 (bs : List Nat) (i : Nat) : Nat :=
  byteAt bs i + 256 * byteAt bs (i + 1)

/-- Little-endian `i16` at offset `i` (two's complement). -/
def decodeI16 (bs : List Nat) (i : Nat) : Int :=
  let u := decodeU16 bs i
  if u < 2 ^ 15 then (u : Int) else (u : Int) - 2 ^ 16

/-- Little-endian `u32` at offset `i`. -/
def decodeU32 (bs : List Nat) (i : Nat) : Nat :=
  decodeU16 bs i + 2 ^ 16 * decodeU16 bs (i + 2)

/-- Little-endian `i32` at offset `i` (two's complement). -/
def decodeI32 (bs : List Nat) (i : Nat) : Int :=
  let u := decodeU32 bs i
  if u < 2 ^ 31 then (u : Int) else (u : Int) - 2 ^ 32

/-- Little-endian `u64` at offset `i`. -/
def decodeU64 (bs : List Nat) (i : Nat) : Nat :=
  decodeU32 bs i + 2 ^ 32 * decodeU32 bs (i + 4)

/-- Decode a `TouchPoint` from the byte buffer at offset `off`,
following the `repr(C)` layout. -/
def decodeTouchPoint (bs : List Nat) (off : Nat) : TouchPoint :=
  { id := byteAt bs off
    flags := byteAt bs (off + 1)
    x := decodeI16 bs (off + 2)
    y := decodeI16 bs (off + 4)
    h := decodeI16 bs (off + 6)
    w := decodeI16 bs (off + 8)
    gesture := decodeU16 bs (off + 10)
    pressure := decodeU16 bs (off + 12)
    timestamp := decodeU64 bs (off + 16) }

/-- Decode a whole `TouchSample` record from the transferred bytes. -/
def decodeTouchSample (bs : List Nat) : TouchSample :=
  { npoints := decodeI32 bs 0
    point := decodeTouchPoint bs 8 }

/-! ### Touchscreen device -/

/-- `libc::EIO` (I/O error number, 5 on NuttX as on POSIX systems). -/
def EIO_ERRNO : Int := 5

/-- The mode flags a wrapper passes to the OS `open` call. -/
inductive OpenMode where
  /-- `O_RDONLY | O_NONBLOCK` -/
  | rdonlyNonblock
  /-- `O_RDWR` -/
  | rdwr
  deriving Repr, DecidableEq

/-- `TouchScreen { fd: c_int }`. -/
structure TouchScreen where
  fd : Int
  deriving Repr, DecidableEq

/-- `TouchScreen::open`: call `open(path, O_RDONLY | O_NONBLOCK)`; a
negative return is propagated as the error, otherwise the descriptor is
wrapped.  `openSys` is the oracle for the OS `open` call: given the mode
flags the source passes, it yields the returned descriptor/error. -/
def TouchScreen.open (openSys : OpenMode → Int) : Except Int TouchScreen :=
  let fd := openSys OpenMode.rdonlyNonblock
  if fd < 0 then Except.error fd else Except.ok { fd := fd }

/-- `TouchScreen::read_sample`: issue one `read` of
`size_of::<TouchSample>()` bytes into a zero-initialised sample
(`npoints = 0`, default point).  `readRes` is the oracle outcome of that
`read` call: the returned byte count (`ssize_t`) and the bytes the
kernel wrote into the buffer.  A negative count is propagated (cast
`as i32`), a count different from the record size yields `-EIO`, and
only a full record is decoded and returned.  The first component of the
result is the device state after the call, which the source never
mutates. -/
def TouchScreen.read_sample (ts : TouchScreen) (readRes : Int × List Nat) :
    TouchScreen × Except Int TouchSample :=
  let bytes_read := readRes.1
  if bytes_read < 0 then
    (ts, Except.error (wrap32 bytes_read))
  else if bytes_read.toNat ≠ TOUCH_SAMPLE_SIZE then
    (ts, Except.error (-EIO_ERRNO))
  else
    (ts, Except.ok (decodeTouchSample readRes.2))

/-! ### Framebuffer data model (`src/video/fb.rs`) -/

/-- `Format::RGB565 = 11` (BPP=16, R=5, G=6, B=5). -/
def Format.RGB565 : Nat := 11

/-- `FBIOGET_VIDEOINFO`: ioctl command to get video information. -/
def FBIOGET_VIDEOINFO : Int := 0x2801

/-- `FBIOGET_PLANEINFO`: ioctl command to get plane information. -/
def FBIOGET_PLANEINFO : Int := 0x2802

/-- `FBIO_UPDATE`: ioctl command to update a rectangular region. -/
def FBIO_UPDATE : Int := 0x2807

/-- `VideoInfo` (`fb_videoinfo_s`): `fmt : u8`, `xres yres : u16`
(`fb_coord_t`), `nplanes : u8`.  The optional `noverlays`/`moduleinfo`
fields are behind the `fb_overlay`/`fb_moduleinfo` features, off in the
default build modelled here. -/
structure VideoInfo where
  fmt : Nat
  xres : Nat
  yres : Nat
  nplanes : Nat
  deriving Repr, DecidableEq

/-- `VideoInfo::default()`: all fields zero. -/
def VideoInfo.default : VideoInfo :=
  { fmt := 0, xres := 0, yres := 0, nplanes := 0 }

/-- `PlaneInfo` (`fb_planeinfo_s`): `fbmem fblen : usize`,
`stride : u16`, `display bpp : u8`, virtual resolution and pan offsets
as `u32`. -/
structure PlaneInfo where
  fbmem : Nat
  fblen : Nat
  stride : Nat
  display : Nat
  bpp : Nat
  xres_virtual : Nat
  yres_virtual : Nat
  xoffset : Nat
  yoffset : Nat
  deriving Repr, DecidableEq

/-- `PlaneInfo::default()`: all fields zero. -/
def PlaneInfo.default : PlaneInfo :=
  { fbmem := 0, fblen := 0, stride := 0, display := 0, bpp := 0
    xres_virtual := 0, yres_virtual := 0, xoffset := 0, yoffset := 0 }

/-- `Area` (`fb_area_s`): a damage rectangle, all fields `fb_coord_t`
(`u16`). -/
structure Area where
  x : Nat
  y : Nat
  w : Nat
  h : Nat
  deriving Repr, DecidableEq

/-- `FrameBuffer { fd: i32 }`. -/
structure FrameBuffer where
  fd : Int
  deriving Repr, DecidableEq

/-- `FrameBuffer::new`: call `open(path, O_RDWR)`; a negative return is
propagated as the error, otherwise the descriptor is wrapped. -/
def FrameBuffer.new (openSys : OpenMode → Int) : Except Int FrameBuffer :=
  let fd := openSys OpenMode.rdwr
  if fd < 0 then Except.error fd else Except.ok { fd := fd }

/-- `FrameBuffer::get_video_info`: ioctl `FBIOGET_VIDEOINFO` on a
zero-initialised (`default`) `VideoInfo` buffer.  The oracle `ioctl`
maps (fd, command, buffer passed in) to (return value, buffer contents
after the call).  A negative return is propagated as the error,
otherwise the driver-populated structure is returned.  The second
component records the control call issued: (command, buffer passed
in). -/
def FrameBuffer.get_video_info (fb : FrameBuffer)
    (ioctl : Int → Int → VideoInfo → Int × VideoInfo) :
    Except Int VideoInfo × List (Int × VideoInfo) :=
  let info := VideoInfo.default
  let result := ioctl fb.fd FBIOGET_VIDEOINFO info
  (if result.1 < 0 then Except.error result.1 else Except.ok result.2,
   [(FBIOGET_VIDEOINFO, info)])

/-- `FrameBuffer::get_plane_info`: same pattern as `get_video_info`
with command `FBIOGET_PLANEINFO` and a zero-initialised `PlaneInfo`
buffer. -/
def FrameBuffer.get_plane_info (fb : FrameBuffer)
    (ioctl : Int → Int → PlaneInfo → Int × PlaneInfo) :
    Except Int PlaneInfo × List (Int × PlaneInfo) :=
  let info := PlaneInfo.default
  let result := ioctl fb.fd FBIOGET_PLANEINFO info
  (if result.1 < 0 then Except.error result.1 else Except.ok result.2,
   [(FBIOGET_PLANEINFO, info)])

/-- `FrameBuffer::update_area` under `cfg(feature = "fb_update")`:
ioctl `FBIO_UPDATE` passing the `Area` by reference; negative return
propagated, otherwise `Ok(())`.  The second component records the
command codes of the control calls issued. -/
def FrameBuffer.update_area_fb_update (fb : FrameBuffer)
    (ioctl : Int → Int → Area → Int) (area : Area) :
    Except Int Unit × List Int :=
  let result := ioctl fb.fd FBIO_UPDATE area
  (if result < 0 then Except.error (wrap32 result) else Except.ok (),
   [FBIO_UPDATE])

/-- `FrameBuffer::update_area` under `cfg(not(feature = "fb_update"))`:
the body is `Ok(())` — no control call is issued (the call-record list
is empty) and the result is always success. -/
def FrameBuffer.update_area (_fb : FrameBuffer) (_area : Area) :
    Except Int Unit × List Int :=
  (Except.ok (), [])

/-! ### Helper lemmas -/

/-- `wrap32` is the identity on values already in `i32` range. -/
theorem wrap32_eq_self (n : Int) (h1 : -(2 ^ 31) ≤ n) (h2 : n < 2 ^ 31) :
    wrap32 n = n := by
  unfold wrap32
  rw [Int.emod_eq_of_lt (by omega) (by omega)]
  omega

/-- `read_sample` never mutates the device state (the source never
assigns `self.fd`). -/
theorem read_sample_state (ts : TouchScreen) (r : Int × List Nat) :
    (ts.read_sample r).1 = ts := by
  simp only [TouchScreen.read_sample]
  split
  · rfl
  · split
    · rfl
    · rfl

/-! ### Claims -/

set_option maxRecDepth 8192 in
/-- C1: for every flags byte (all 256 `u8` values), each of the eight
touch predicates returns true iff exactly its designated bit
(LSB indices 0..7: down, move, up, id-valid, pos-valid, pressure-valid,
size-valid, gesture-valid) is set in `flags`, independent of all other
bits. -/
theorem touch_flag_predicates_iff_bits (p : TouchPoint) (h : p.flags < 256) :
    (p.is_touch_down = true ↔ p.flags.testBit 0 = true) ∧
    (p.is_touch_move = true ↔ p.flags.testBit 1 = true) ∧
    (p.is_touch_up = true ↔ p.flags.testBit 2 = true) ∧
    (p.is_id_valid = true ↔ p.flags.testBit 3 = true) ∧
    (p.is_pos_valid = true ↔ p.flags.testBit 4 = true) ∧
    (p.is_pressure_valid = true ↔ p.flags.testBit 5 = true) ∧
    (p.is_size_valid = true ↔ p.flags.testBit 6 = true) ∧
    (p.is_gesture_valid = true ↔ p.flags.testBit 7 = true) := by
  simp only [TouchPoint.is_touch_down, TouchPoint.is_touch_move,
    TouchPoint.is_touch_up, TouchPoint.is_id_valid, TouchPoint.is_pos_valid,
    TouchPoint.is_pressure_valid, TouchPoint.is_size_valid,
    TouchPoint.is_gesture_valid, TOUCH_DOWN, TOUCH_MOVE, TOUCH_UP,
    TOUCH_ID_VALID, TOUCH_POS_VALID, TOUCH_PRESSURE_VALID, TOUCH_SIZE_VALID,
    TOUCH_GESTURE_VALID]
  revert h
  generalize p.flags = f
  revert f
  decide

/-- Witness for C1 at flags = 165 = 0b10100101 (bits 0, 2, 5, 7 set). -/
theorem touch_flag_predicates_iff_bits_witness :
    (TouchPoint.mk 7 165 (-1) 2 3 4 5 6 99).flags < 256 ∧
    (((TouchPoint.mk 7 165 (-1) 2 3 4 5 6 99).is_touch_down = true ↔
        (TouchPoint.mk 7 165 (-1) 2 3 4 5 6 99).flags.testBit 0 = true) ∧
     ((TouchPoint.mk 7 165 (-1) 2 3 4 5 6 99).is_touch_move = true ↔
        (TouchPoint.mk 7 165 (-1) 2 3 4 5 6 99).flags.testBit 1 = true) ∧
     ((TouchPoint.mk 7 165 (-1) 2 3 4 5 6 99).is_touch_up = true ↔
        (TouchPoint.mk 7 165 (-1) 2 3 4 5 6 99).flags.testBit 2 = true) ∧
     ((TouchPoint.mk 7 165 (-1) 2 3 4 5 6 99).is_id_valid = true ↔
        (TouchPoint.mk 7 165 (-1) 2 3 4 5 6 99).flags.testBit 3 = true) ∧
     ((TouchPoint.mk 7 165 (-1) 2 3 4 5 6 99).is_pos_valid = true ↔
        (TouchPoint.mk 7 165 (-1) 2 3 4 5 6 99).flags.testBit 4 = true) ∧
     ((TouchPoint.mk 7 165 (-1) 2 3 4 5 6 99).is_pressure_valid = true ↔
        (TouchPoint.mk 7 165 (-1) 2 3 4 5 6 99).flags.testBit 5 = true) ∧
     ((TouchPoint.mk 7 165 (-1) 2 3 4 5 6 99).is_size_valid = true ↔
        (TouchPoint.mk 7 165 (-1) 2 3 4 5 6 99).flags.testBit 6 = true) ∧
     ((TouchPoint.mk 7 165 (-1) 2 3 4 5 6 99).is_gesture_valid = true ↔
        (TouchPoint.mk 7 165 (-1) 2 3 4 5 6 99).flags.testBit 7 = true)) :=
  ⟨by decide, touch_flag_predicates_iff_bits (TouchPoint.mk 7 165 (-1) 2 3 4 5 6 99) (by decide)⟩

/-- C6: the framebuffer device-control command codes are exactly the
fixed protocol constants: get-video-info = 0x2801, get-plane-info =
0x2802, update-area = 0x2807. -/
theorem fb_ioctl_command_codes :
    FBIOGET_VIDEOINFO = 0x2801 ∧ FBIOGET_PLANEINFO = 0x2802 ∧
    FBIO_UPDATE = 0x2807 :=
  ⟨rfl, rfl, rfl⟩

/-- C2: `read_sample` propagates a negative byte count unchanged as the
error code, turns any non-negative byte count different from the record
size into the generic I/O error `-EIO` (never a partially populated
sample), and returns `Ok` exactly when the count equals the record
size. -/
theorem read_sample_transfer_check (ts : TouchScreen) (n : Int) (bs : List Nat) :
    (n < 0 → -(2 ^ 31) ≤ n → (ts.read_sample (n, bs)).2 = Except.error n) ∧
    (0 ≤ n → n ≠ 32 → (ts.read_sample (n, bs)).2 = Except.error (-EIO_ERRNO)) ∧
    (n = 32 → (ts.read_sample (n, bs)).2 = Except.ok (decodeTouchSample bs)) ∧
    (∀ s : TouchSample, (ts.read_sample (n, bs)).2 = Except.ok s → n = 32) := by
  refine ⟨?_, ?_, ?_, ?_⟩
  · intro hneg hlb
    have hub : n < 2 ^ 31 := by omega
    simp only [TouchScreen.read_sample]
    rw [if_pos hneg]
    rw [wrap32_eq_self n hlb hub]
  · intro hpos hne
    have h1 : ¬ n < 0 := by omega
    have h2 : n.toNat ≠ TOUCH_SAMPLE_SIZE := by
      unfold TOUCH_SAMPLE_SIZE
      omega
    simp [TouchScreen.read_sample, h1, h2]
  · intro h
    subst h
    simp [TouchScreen.read_sample, TOUCH_SAMPLE_SIZE]
  · intro s hok
    by_cases h1 : n < 0
    · simp [TouchScreen.read_sample, h1] at hok
    · by_cases h2 : n.toNat = TOUCH_SAMPLE_SIZE
      · unfold TOUCH_SAMPLE_SIZE at h2
        omega
      · simp [TouchScreen.read_sample, h1, h2] at hok

/-- Witness for C2: a read of -5 propagates -5, a 10-byte transfer is
`-EIO`, a full 32-byte transfer is decoded and returned. -/
theorem read_sample_transfer_check_witness :
    ((TouchScreen.mk 3).read_sample (-5, [])).2 = Except.error (-5) ∧
    ((TouchScreen.mk 3).read_sample (10, [])).2 = Except.error (-EIO_ERRNO) ∧
    ((TouchScreen.mk 3).read_sample (32, List.replicate 32 0)).2 =
      Except.ok (decodeTouchSample (List.replicate 32 0)) :=
  ⟨(read_sample_transfer_check ⟨3⟩ (-5) []).1 (by norm_num) (by norm_num),
   (read_sample_transfer_check ⟨3⟩ 10 []).2.1 (by norm_num) (by norm_num),
   (read_sample_transfer_check ⟨3⟩ 32 (List.replicate 32 0)).2.2.1 rfl⟩

/-- C7: a transfer of exactly one full record whose 32 bytes are all
zero yields `Ok` with `npoints = 0` and the default-valued point, and
all eight flag predicates evaluate to false on that point. -/
theorem read_sample_all_zero_record (ts : TouchScreen) :
    (ts.read_sample (32, List.replicate 32 0)).2 =
      Except.ok { npoints := 0, point := TouchPoint.default } ∧
    TouchPoint.default.is_touch_down = false ∧
    TouchPoint.default.is_touch_move = false ∧
    TouchPoint.default.is_touch_up = false ∧
    TouchPoint.default.is_id_valid = false ∧
    TouchPoint.default.is_pos_valid = false ∧
    TouchPoint.default.is_pressure_valid = false ∧
    TouchPoint.default.is_size_valid = false ∧
    TouchPoint.default.is_gesture_valid = false :=
  ⟨rfl, rfl, rfl, rfl, rfl, rfl, rfl, rfl, rfl⟩

/-- C9: a zero-byte transfer (the non-blocking no-data case) is
reported as the `-EIO` incomplete-transfer error, not as an `Ok` sample
with `npoints = 0`; no transfer shorter than a full record ever yields
`Ok`. -/
theorem read_sample_zero_bytes (ts : TouchScreen) (bs : List Nat) :
    (ts.read_sample (0, bs)).2 = Except.error (-EIO_ERRNO) ∧
    ∀ n : Int, n < 32 → ∀ s : TouchSample,
      (ts.read_sample (n, bs)).2 ≠ Except.ok s := by
  constructor
  · simp [TouchScreen.read_sample, TOUCH_SAMPLE_SIZE]
  · intro n hn s hok
    by_cases h1 : n < 0
    · simp [TouchScreen.read_sample, h1] at hok
    · have h2 : n.toNat ≠ TOUCH_SAMPLE_SIZE := by
        unfold TOUCH_SAMPLE_SIZE
        omega
      simp [TouchScreen.read_sample, h1, h2] at hok

/-- Witness for C9: a 10-byte transfer never yields the all-zero
sample. -/
theorem read_sample_zero_bytes_witness :
    ((TouchScreen.mk 3).read_sample (0, [])).2 = Except.error (-EIO_ERRNO) ∧
    ((TouchScreen.mk 3).read_sample (10, [])).2 ≠
      Except.ok { npoints := 0, point := TouchPoint.default } :=
  ⟨(read_sample_zero_bytes ⟨3⟩ []).1,
   (read_sample_zero_bytes ⟨3⟩ []).2 10 (by norm_num)
     { npoints := 0, point := TouchPoint.default }⟩

/-- C3: with the `fb_update` feature configured off, `update_area`
returns `Ok(())` for every `Area` and every device state, and issues no
underlying device-control call (the recorded call list is empty). -/
theorem update_area_feature_off (fb : FrameBuffer) (area : Area) :
    fb.update_area area = (Except.ok (), []) :=
  rfl

/-- C4: `get_video_info` and `get_plane_info` each issue exactly one
device-control request on a zero-initialized default buffer; a negative
control-call return `n` is propagated exactly as `Err(n)`, and a
non-negative return yields `Ok` with the driver-populated structure. -/
theorem fb_get_info_ioctl_contract (fb : FrameBuffer)
    (iv : Int → Int → VideoInfo → Int × VideoInfo)
    (ip : Int → Int → PlaneInfo → Int × PlaneInfo) :
    VideoInfo.default = VideoInfo.mk 0 0 0 0 ∧
    PlaneInfo.default = PlaneInfo.mk 0 0 0 0 0 0 0 0 0 ∧
    (fb.get_video_info iv).2 = [(FBIOGET_VIDEOINFO, VideoInfo.default)] ∧
    (fb.get_plane_info ip).2 = [(FBIOGET_PLANEINFO, PlaneInfo.default)] ∧
    ((iv fb.fd FBIOGET_VIDEOINFO VideoInfo.default).1 < 0 →
      (fb.get_video_info iv).1 =
        Except.error (iv fb.fd FBIOGET_VIDEOINFO VideoInfo.default).1) ∧
    (0 ≤ (iv fb.fd FBIOGET_VIDEOINFO VideoInfo.default).1 →
      (fb.get_video_info iv).1 =
        Except.ok (iv fb.fd FBIOGET_VIDEOINFO VideoInfo.default).2) ∧
    ((ip fb.fd FBIOGET_PLANEINFO PlaneInfo.default).1 < 0 →
      (fb.get_plane_info ip).1 =
        Except.error (ip fb.fd FBIOGET_PLANEINFO PlaneInfo.default).1) ∧
    (0 ≤ (ip fb.fd FBIOGET_PLANEINFO PlaneInfo.default).1 →
      (fb.get_plane_info ip).1 =
        Except.ok (ip fb.fd FBIOGET_PLANEINFO PlaneInfo.default).2) := by
  refine ⟨rfl, rfl, rfl, rfl, ?_, ?_, ?_, ?_⟩
  · intro h
    simp [FrameBuffer.get_video_info, h]
  · intro h
    have h1 : ¬ (iv fb.fd FBIOGET_VIDEOINFO VideoInfo.default).1 < 0 := by omega
    simp [FrameBuffer.get_video_info, h1]
  · intro h
    simp [FrameBuffer.get_plane_info, h]
  · intro h
    have h1 : ¬ (ip fb.fd FBIOGET_PLANEINFO PlaneInfo.default).1 < 0 := by omega
    simp [FrameBuffer.get_plane_info, h1]

/-- Witness for C4: against a simulated device that fails every control
call with -5, both getters propagate exactly -5. -/
theorem fb_get_info_ioctl_contract_witness :
    ((FrameBuffer.mk 4).get_video_info (fun _ _ v => (-5, v))).1 =
      Except.error (-5) ∧
    ((FrameBuffer.mk 4).get_plane_info (fun _ _ p => (-5, p))).1 =
      Except.error (-5) :=
  ⟨(fb_get_info_ioctl_contract ⟨4⟩ (fun _ _ v => (-5, v))
      (fun _ _ p => (-5, p))).2.2.2.2.1 (by norm_num),
   (fb_get_info_ioctl_contract ⟨4⟩ (fun _ _ v => (-5, v))
      (fun _ _ p => (-5, p))).2.2.2.2.2.2.1 (by norm_num)⟩

/-- C5: `TouchScreen::open` opens with `O_RDONLY | O_NONBLOCK` and
`FrameBuffer::new` with `O_RDWR` (each constructor's result is a
function of the open call's return for exactly that mode); a negative
open return is propagated unchanged as the error, and a non-negative
return yields a device wrapping that descriptor. -/
theorem device_open_contract (openSys : OpenMode → Int) :
    (openSys OpenMode.rdonlyNonblock < 0 →
      TouchScreen.open openSys =
        Except.error (openSys OpenMode.rdonlyNonblock)) ∧
    (0 ≤ openSys OpenMode.rdonlyNonblock →
      TouchScreen.open openSys =
        Except.ok { fd := openSys OpenMode.rdonlyNonblock }) ∧
    (openSys OpenMode.rdwr < 0 →
      FrameBuffer.new openSys = Except.error (openSys OpenMode.rdwr)) ∧
    (0 ≤ openSys OpenMode.rdwr →
      FrameBuffer.new openSys = Except.ok { fd := openSys OpenMode.rdwr }) ∧
    (∀ o2 : OpenMode → Int,
      o2 OpenMode.rdonlyNonblock = openSys OpenMode.rdonlyNonblock →
      TouchScreen.open o2 = TouchScreen.open openSys) ∧
    (∀ o2 : OpenMode → Int, o2 OpenMode.rdwr = openSys OpenMode.rdwr →
      FrameBuffer.new o2 = FrameBuffer.new openSys) := by
  refine ⟨?_, ?_, ?_, ?_, ?_, ?_⟩
  · intro h
    simp [TouchScreen.open, h]
  · intro h
    have h1 : ¬ openSys OpenMode.rdonlyNonblock < 0 := by omega
    simp [TouchScreen.open, h1]
  · intro h
    simp [FrameBuffer.new, h]
  · intro h
    have h1 : ¬ openSys OpenMode.rdwr < 0 := by omega
    simp [FrameBuffer.new, h1]
  · intro o2 h
    unfold TouchScreen.open
    rw [h]
  · intro o2 h
    unfold FrameBuffer.new
    rw [h]

/-- Witness for C5: an open failing with -2 propagates -2 for the
touchscreen; an open yielding descriptor 7 gives a framebuffer wrapping
7. -/
theorem device_open_contract_witness :
    TouchScreen.open
        (fun m => match m with
          | OpenMode.rdonlyNonblock => -2
          | OpenMode.rdwr => 7) = Except.error (-2) ∧
    FrameBuffer.new
        (fun m => match m with
          | OpenMode.rdonlyNonblock => -2
          | OpenMode.rdwr => 7) = Except.ok { fd := 7 } :=
  ⟨(device_open_contract
      (fun m => match m with
        | OpenMode.rdonlyNonblock => -2
        | OpenMode.rdwr => 7)).1 (by decide),
   (device_open_contract
      (fun m => match m with
        | OpenMode.rdonlyNonblock => -2
        | OpenMode.rdwr => 7)).2.2.2.1 (by decide)⟩

/-- C10: successfully constructed devices hold a non-negative
descriptor, and every operation leaves the stored descriptor unchanged
(`read_sample`, the only `&mut self` operation, returns the state
untouched, so any sequence of reads preserves it; the `&self`
framebuffer operations do not touch the state at all). -/
theorem device_fd_invariant (openSys : OpenMode → Int)
    (ts : TouchScreen) (fb : FrameBuffer) :
    (TouchScreen.open openSys = Except.ok ts → 0 ≤ ts.fd) ∧
    (FrameBuffer.new openSys = Except.ok fb → 0 ≤ fb.fd) ∧
    (∀ r : Int × List Nat, (ts.read_sample r).1 = ts) ∧
    (∀ rs : List (Int × List Nat),
      rs.foldl (fun s r => (s.read_sample r).1) ts = ts) := by
  refine ⟨?_, ?_, ?_, ?_⟩
  · intro h
    rcases ts with ⟨tfd⟩
    by_cases hlt : openSys OpenMode.rdonlyNonblock < 0
    · simp [TouchScreen.open, hlt] at h
    · simp [TouchScreen.open, hlt, TouchScreen.mk.injEq] at h
      simp only [← h]
      omega
  · intro h
    rcases fb with ⟨ffd⟩
    by_cases hlt : openSys OpenMode.rdwr < 0
    · simp [FrameBuffer.new, hlt] at h
    · simp [FrameBuffer.new, hlt, FrameBuffer.mk.injEq] at h
      simp only [← h]
      omega
  · intro r
    exact read_sample_state ts r
  · intro rs
    induction rs with
    | nil => rfl
    | cons r rest ih =>
      simp only [List.foldl_cons]
      rw [read_sample_state]
      exact ih

/-- Witness for C10: opening with descriptor 5 yields a device whose
descriptor is the non-negative 5, and a read leaves the state
untouched. -/
theorem device_fd_invariant_witness :
    0 ≤ (TouchScreen.mk 5).fd ∧
    0 ≤ (FrameBuffer.mk 5).fd ∧
    ((TouchScreen.mk 5).read_sample (0, [])).1 = TouchScreen.mk 5 :=
  ⟨(device_fd_invariant (fun _ => 5) ⟨5⟩ ⟨5⟩).1 rfl,
   (device_fd_invariant (fun _ => 5) ⟨5⟩ ⟨5⟩).2.1 rfl,
   (device_fd_invariant (fun _ => 5) ⟨5⟩ ⟨5⟩).2.2.1 (0, [])⟩
